import Mathlib

/-!
Verification of the parameterized-query notebooks
(`SQLAlchemyDemo.ipynb`, `AsajadHusseinAbdulKadhom.ipynb`, and the unnamed
core-tutorial notebook).

The repository contains no engineered executor of its own: the notebooks call
SQLAlchemy's `text()` / `Connection.execute()` machinery.  Definitions below
therefore fall in two groups:

* faithful shallow embeddings of code that *is* in the repository
  (`search_books`, the query template strings, the LIKE filtering the
  notebooks' statements denote); and
* definitions whose doc string starts `Modelled from the spec:` — the
  Placeholder Binder / Query Executor component of the specification, whose
  implementation lives in the external database library and is not part of
  the repository sources.
-/

/-! ## SQL LIKE pattern semantics

The notebooks filter rows with SQL `LIKE` / `ilike` patterns.  `%` matches
any (possibly empty) substring and `_` matches exactly one character; every
other pattern character matches only itself. -/

/-- Decide whether a SQL LIKE pattern (first argument) matches a string
(second argument), both given as character lists.  `%` matches any run of
characters (expressed via: some suffix of the subject matches the rest of
the pattern), `_` matches exactly one character, anything else matches
literally. -/
def likeMatch : List Char → List Char → Bool
  | [], s => s.isEmpty
  | p :: ps, s =>
    if p = '%' then s.tails.any (fun t => likeMatch ps t)
    else
      match s with
      | [] => false
      | c :: s' => (p == '_' || p == c) && likeMatch ps s'

/-- Case-insensitive LIKE matching: both pattern and subject are lowered
first.  This is the semantics of SQLAlchemy's `ilike`. -/
def ilikeMatch (p s : List Char) : Bool :=
  likeMatch (p.map Char.toLower) (s.map Char.toLower)

/-- A character list is wildcard-free when it contains neither of the LIKE
metacharacters `%` and `_`. -/
def noWildcard (v : List Char) : Bool :=
  v.all (fun c => !(c == '%') && !(c == '_'))

/-! ## Data model of the Parameterized Query Executor (spec §3) -/

/-- Modelled from the spec: scalar values carried by a `BindingMap` and by
result records (the spec's float and date cases are represented by their
textual form; no claim depends on their arithmetic). -/
inductive Scalar where
  | str (s : String)
  | int (n : Int)
  | null
deriving DecidableEq, Repr

/-- Modelled from the spec: a binding map is an ordered mapping from
placeholder name to scalar value. -/
abbrev BindingMap := List (String × Scalar)

/-- Modelled from the spec: a `BoundQuery` carries the template and the
validated bindings together, ready for transport. -/
structure BoundQuery where
  template : String
  bindings : BindingMap
deriving DecidableEq, Repr

/-- Modelled from the spec: the error taxonomy of §7 — `BindingMismatch`,
`ConnectionError` and `QueryError`, each carrying a human-readable
message. -/
inductive ExecutionError where
  | bindingMismatch (msg : String)
  | connectionError (msg : String)
  | queryError (msg : String)
deriving DecidableEq, Repr

/-- The human-readable message carried by an `ExecutionError`. -/
def ExecutionError.message : ExecutionError → String
  | .bindingMismatch m => m
  | .connectionError m => m
  | .queryError m => m

/-! ## Placeholder Binder (spec §4.1) -/

/-- A character that may occur in a placeholder name: alphanumeric or
underscore (spec §4.1 lexical rule). -/
def isNameChar (c : Char) : Bool := c.isAlphanum || c = '_'

/-- Emit a collected placeholder name (stored reversed) in front of `rest`,
unless it is empty (a bare colon is not a placeholder). -/
def flushName (acc : List Char) (rest : List String) : List String :=
  if acc.isEmpty then rest else String.mk acc.reverse :: rest

/-- Modelled from the spec: single pass scanner extracting the placeholder
names of a template.  State: remaining characters, whether we are inside a
single-quoted string literal, and (when `some`) the reversed characters of
the placeholder name currently being read.  A colon outside quotes starts a
name; name characters extend it; any other character ends it. -/
def scanPH : List Char → Bool → Option (List Char) → List String
  | [], _, none => []
  | [], _, some acc => flushName acc []
  | c :: cs, inQ, some acc =>
    if isNameChar c then scanPH cs inQ (some (c :: acc))
    else if c = '\'' then flushName acc (scanPH cs (!inQ) none)
    else if c = ':' then flushName acc (scanPH cs inQ (some []))
    else flushName acc (scanPH cs inQ none)
  | c :: cs, inQ, none =>
    if c = '\'' then scanPH cs (!inQ) none
    else if (c == ':') && !inQ then scanPH cs inQ (some [])
    else scanPH cs inQ none

/-- Modelled from the spec: the placeholder names of a query template — a
colon followed by one or more alphanumeric/underscore characters, outside
of quoted string literals. -/
def placeholders (t : String) : List String := scanPH t.data false none

/-- The names present in a binding map, in order. -/
def bindingNames (B : BindingMap) : List String := B.map Prod.fst

/-- Boolean membership of a name in a list of names. -/
def hasName (names : List String) (x : String) : Bool :=
  names.any (fun y => y == x)

/-- Mutual containment of two name lists: every placeholder has a binding
and every binding names a placeholder. -/
def nameSetsMatch (ph names : List String) : Bool :=
  ph.all (fun p => hasName names p) && names.all (fun n => hasName ph n)

/-- The diagnostic message produced on a template/bindings disagreement. -/
def bindingMismatchMsg : String :=
  "template placeholders and supplied bindings disagree"

/-- Modelled from the spec: `bind(template, bindings)` — pure validation and
packaging: succeeds with a `BoundQuery` when the placeholder-name set and
the binding-name set coincide, otherwise fails with `BindingMismatch`.
(The name is qualified to keep it apart from the monadic `bind` of the
prelude.) -/
def Executor.bind (T : String) (B : BindingMap) :
    Except ExecutionError BoundQuery :=
  if nameSetsMatch (placeholders T) (bindingNames B) then
    .ok ⟨T, B⟩
  else
    .error (.bindingMismatch bindingMismatchMsg)

/-! ## Query Executor (spec §4.2, §5, §6) -/

/-- Modelled from the spec: what is handed to the database transport — the
template text and the bindings, as two separate channels. -/
structure Transmission where
  sql : String
  params : BindingMap
deriving DecidableEq, Repr

/-- Modelled from the spec: the executor transmits the template text and the
bindings separately; bound values are never interpolated into the template
text. -/
def transmit (q : BoundQuery) : Transmission := ⟨q.template, q.bindings⟩

/-- Modelled from the spec: errors reported by the underlying transport,
each carrying the original diagnostic message. -/
inductive TransportError where
  | unreachableHost (msg : String)
  | authFailure (msg : String)
  | timeout (msg : String)
  | malformedSql (msg : String)
  | constraintViolation (msg : String)
  | typeMismatch (msg : String)
deriving DecidableEq, Repr

/-- The diagnostic message carried by a transport error. -/
def TransportError.message : TransportError → String
  | .unreachableHost m => m
  | .authFailure m => m
  | .timeout m => m
  | .malformedSql m => m
  | .constraintViolation m => m
  | .typeMismatch m => m

/-- Whether a transport error is an environment/infrastructure failure
(unreachable host, authentication failure, timeout), as opposed to a
statement rejected by the server. -/
def isConnectionKind : TransportError → Bool
  | .unreachableHost _ => true
  | .authFailure _ => true
  | .timeout _ => true
  | .malformedSql _ => false
  | .constraintViolation _ => false
  | .typeMismatch _ => false

/-- Modelled from the spec: classification of a transport error into the
executor's error taxonomy, preserving the original diagnostic message. -/
def classify : TransportError → ExecutionError
  | .unreachableHost m => .connectionError m
  | .authFailure m => .connectionError m
  | .timeout m => .connectionError m
  | .malformedSql m => .queryError m
  | .constraintViolation m => .queryError m
  | .typeMismatch m => .queryError m

/-- Raw rows and column metadata as returned by the transport. -/
structure RawResult where
  columns : List String
  rows : List (List Scalar)
deriving DecidableEq, Repr

/-- Modelled from the spec: an ordered sequence of records, each a mapping
from column name to scalar value, together with the declared column
names in database order. -/
structure ResultSet where
  keys : List String
  records : List (List (String × Scalar))
deriving DecidableEq, Repr

/-- Modelled from the spec: the Result Projector — pair each raw row
positionally with the declared column names. -/
def projectRaw (r : RawResult) : ResultSet :=
  ⟨r.columns, r.rows.map (fun row => r.columns.zip row)⟩

/-- Connection accounting of the fake transport used to state the
resource-release property: how many times a connection has been acquired
and released. -/
structure ConnState where
  acquires : Nat
  releases : Nat
deriving DecidableEq, Repr

/-- Modelled from the spec: one execution — acquire a connection, hand the
transmission to the transport, release the connection on every exit path
(both the success branch and the failure branch), then return the projected
result set or the classified error. -/
def execute (transport : Transmission → Except TransportError RawResult)
    (q : BoundQuery) (st : ConnState) :
    ConnState × Except ExecutionError ResultSet :=
  let st1 : ConnState := { st with acquires := st.acquires + 1 }
  let r := transport (transmit q)
  let st2 : ConnState := { st1 with releases := st1.releases + 1 }
  match r with
  | .ok raw => (st2, .ok (projectRaw raw))
  | .error e => (st2, .error (classify e))

/-! ## The concrete templates of `SQLAlchemyDemo.ipynb` -/

/-- The parameterized Users query of the demo notebook (cell 16). -/
def parameterized_query_template : String :=
  "Select * from Users where FirstName like '%' + :first_name + '%'"

/-- The fixed airport-search query of the demo notebook (cell 20). -/
def safe_query_template : String :=
  "select top 10 IATA, [Airport name] as 'name', [Location served] as 'location' from airports where [Location served] like '%' + :search_string + '%'"

/-- Count the statement separators (semicolons outside single-quoted string
literals) of a SQL text. -/
def countStmtSeps : List Char → Bool → Nat
  | [], _ => 0
  | c :: cs, inQ =>
    if c = '\'' then countStmtSeps cs (!inQ)
    else if (c == ';') && !inQ then countStmtSeps cs inQ + 1
    else countStmtSeps cs inQ

/-- Number of statements a SQL text consists of: one more than the number
of top-level statement separators. -/
def statementsOf (sql : String) : Nat := countStmtSeps sql.data false + 1

/-- A row of the demo `Users` table, with the seven columns the notebook's
`fetchall` output exhibits. -/
structure UserRow where
  Id : String
  UserName : String
  Password : String
  FirstName : String
  LastName : String
  Email : String
  Phone : String
deriving DecidableEq, Repr

/-- Modelled from the spec: the relational meaning of the bound Users query
`Select * from Users where FirstName like '%' + :first_name + '%'` under
out-of-band parameter binding — the bound value `v` lands inside the LIKE
pattern as data, so the query denotes the rows whose `FirstName` matches
the pattern `'%' + v + '%'`. -/
def runUsersQuery (db : List UserRow) (v : String) : List UserRow :=
  db.filter (fun u => likeMatch ('%' :: (v.data ++ ['%'])) u.FirstName.data)

/-! ## The book-search application (`AsajadHusseinAbdulKadhom.ipynb`) -/

/-- One entry of a book's inventory as traversed by `search_books`: the
store name reached through `inventory.store.StoreName` and the amount. -/
structure InvEntry where
  storeName : String
  amount : Int
deriving DecidableEq, Repr

/-- A `Book` row as used by `search_books`: `Title`, `ISBN13`, and the lazy
`inventory` relationship, whose traversal either yields the entries or
raises (modelled as `Except` with the exception message).  The unused
columns `Language`, `Price` and `ReleaseDate` are elided. -/
structure Book where
  Title : String
  ISBN13 : String
  inventory : Except String (List InvEntry)

/-- The query inside `search_books`:
`session.query(Book).filter(Book.Title.ilike(f'%{title_search}%')).all()` —
filter the books whose title matches the case-insensitive LIKE pattern
obtained by concatenating `%`, the raw search string, and `%`. -/
def search_books_query (db : List Book) (title_search : String) : List Book :=
  db.filter (fun b => ilikeMatch ("%" ++ title_search ++ "%").data b.Title.data)

/-- The line `search_books` prints for a caught exception. -/
def errLine (e : String) : String := s!"An error occurred: {e}"

/-- The line `search_books` prints when the query returns no rows. -/
def noBooksMsg : String := "No books found matching the search criteria."

/-- The two header lines printed for each matching book. -/
def bookHeader (b : Book) : List String :=
  [s!"Title: {b.Title}, ISBN: {b.ISBN13}", "Stores and availability:"]

/-- The line printed for one inventory entry. -/
def invLine (i : InvEntry) : String :=
  s!"  Store: {i.storeName}, Amount: {i.amount}"

/-- The printing loop of `search_books` over the query results: lines
printed so far, plus the message of the first exception raised by a lazy
`inventory` load, if any (the loop stops there, after the book's header
lines have already been printed). -/
def printBooks : List Book → List String × Option String
  | [] => ([], none)
  | b :: bs =>
    match b.inventory with
    | .error e => (bookHeader b, some e)
    | .ok invs =>
      let rest := printBooks bs
      (bookHeader b ++ invs.map invLine ++ [""] ++ rest.1, rest.2)

/-- Shallow embedding of `search_books` from `AsajadHusseinAbdulKadhom.ipynb`:
the whole body runs under `try/except Exception`.  The argument is the
outcome of the query (which may itself raise); the result is the list of
printed lines paired with `()` — Python's `None`, returned on every path.
Any exception message is printed via `errLine` instead of being
re-raised. -/
def search_books (queryResult : Except String (List Book)) :
    List String × Unit :=
  match queryResult with
  | .error e => ([errLine e], ())
  | .ok [] => ([noBooksMsg], ())
  | .ok (b :: bs) =>
    match printBooks (b :: bs) with
    | (lines, none) => (lines, ())
    | (lines, some e) => (lines ++ [errLine e], ())

/-- Running the search application end to end on an in-memory database
when the query itself does not raise. -/
def run_search_books (db : List Book) (title_search : String) :
    List String × Unit :=
  search_books (.ok (search_books_query db title_search))

/-- A concrete one-book database used to exhibit wildcard behaviour: the
title contains no `_` and no `%`. -/
def bookAb : Book := ⟨"Ab", "978-0", Except.ok []⟩

/-- A concrete Users row for witnesses: Frida Ericson from the notebook's
output. -/
def fridaRow : UserRow :=
  ⟨"571110-3843", "frieri", "7a981e17886344fb031e3735a7284b8c",
   "Frida", "Ericson", "frida.ericson@hotmail.com", "0702-8579941"⟩

/-- A second concrete Users row for witnesses. -/
def alexRow : UserRow :=
  ⟨"741109-2058", "aledah", "425e618ba6834cdff3e5235a648d7a49",
   "Alexander", "Dahl", "alexander.dahl@telia.se", "073-2172719"⟩

/-- A raw result with the column names and first row of the demo notebook's
Users query output. -/
def demoRaw : RawResult :=
  ⟨["Id", "FirstName", "LastName", "Email"],
   [[Scalar.str "741109-2058", Scalar.str "Alexander", Scalar.str "Dahl",
     Scalar.str "alexander.dahl@telia.se"]]⟩

/-! ## Lemmas about the LIKE matcher -/

theorem likeMatch_percent (ps s : List Char) :
    likeMatch ('%' :: ps) s = s.tails.any (fun t => likeMatch ps t) := by
  simp [likeMatch]

theorem likeMatch_percent_iff (ps s : List Char) :
    likeMatch ('%' :: ps) s = true ↔ ∃ t, t <:+ s ∧ likeMatch ps t = true := by
  rw [likeMatch_percent]
  simp [List.any_eq_true, List.mem_tails]

theorem likeMatch_one_percent (s : List Char) : likeMatch ['%'] s = true := by
  rw [likeMatch_percent_iff]
  exact ⟨[], ⟨s, by simp⟩, rfl⟩

theorem likeMatch_two_percent (s : List Char) : likeMatch ['%', '%'] s = true := by
  rw [likeMatch_percent_iff]
  exact ⟨s, List.suffix_refl s, likeMatch_one_percent s⟩

theorem likeMatch_three_percent (s : List Char) :
    likeMatch ['%', '%', '%'] s = true := by
  rw [likeMatch_percent_iff]
  exact ⟨s, List.suffix_refl s, likeMatch_two_percent s⟩

theorem noWildcard_cons {p : Char} {v : List Char}
    (h : noWildcard (p :: v) = true) :
    p ≠ '%' ∧ p ≠ '_' ∧ noWildcard v = true := by
  simp only [noWildcard, List.all_cons, Bool.and_eq_true, Bool.not_eq_true',
    beq_eq_false_iff_ne] at h
  exact ⟨h.1.1, h.1.2, by simpa [noWildcard] using h.2⟩

theorem likeMatch_literal :
    ∀ (v s : List Char), noWildcard v = true →
      (likeMatch (v ++ ['%']) s = true ↔ v <+: s)
  | [], s, _ => by
    simp only [List.nil_append]
    exact ⟨fun _ => ⟨s, rfl⟩, fun _ => likeMatch_one_percent s⟩
  | p :: v, s, h => by
    obtain ⟨hp1, hp2, hv⟩ := noWildcard_cons h
    cases s with
    | nil =>
      constructor
      · intro hx
        rw [List.cons_append] at hx
        simp [likeMatch, hp1] at hx
      · rintro ⟨t, ht⟩
        simp at ht
    | cons c s' =>
      have hstep : likeMatch ((p :: v) ++ ['%']) (c :: s') =
          ((p == '_' || p == c) && likeMatch (v ++ ['%']) s') := by
        rw [List.cons_append]
        simp [likeMatch, hp1]
      have hp2' : (p == '_') = false := by simp [hp2]
      rw [hstep, hp2', Bool.false_or, Bool.and_eq_true, beq_iff_eq,
        List.cons_prefix_cons]
      exact and_congr_right fun _ => likeMatch_literal v s' hv

theorem exists_window_iff (v s : List Char) :
    (∃ t, t <:+ s ∧ v <+: t) ↔ v <:+: s := by
  constructor
  · rintro ⟨t, ⟨u, rfl⟩, ⟨w, rfl⟩⟩
    exact ⟨u, w, by rw [List.append_assoc]⟩
  · rintro ⟨u, w, rfl⟩
    exact ⟨v ++ w, ⟨u, by rw [List.append_assoc]⟩, ⟨w, rfl⟩⟩

theorem likeMatch_contains {v : List Char} (s : List Char)
    (h : noWildcard v = true) :
    likeMatch ('%' :: (v ++ ['%'])) s = true ↔ v <:+: s := by
  rw [likeMatch_percent_iff, ← exists_window_iff]
  exact exists_congr fun t => and_congr_right fun _ => likeMatch_literal v t h

/-! ## Lemmas about the binder's name-set check -/

theorem hasName_iff (ns : List String) (x : String) :
    hasName ns x = true ↔ x ∈ ns := by
  simp [hasName, List.any_eq_true, beq_iff_eq]

theorem nameSetsMatch_iff (ph ns : List String) :
    nameSetsMatch ph ns = true ↔
      (∀ p ∈ ph, p ∈ ns) ∧ (∀ n ∈ ns, n ∈ ph) := by
  simp [nameSetsMatch, List.all_eq_true, hasName_iff]

/-! ## Claim theorems -/

/-- C1: binding a value containing SQL-significant characters (quote,
semicolon, `--`) into a placeholder never causes additional statements to
run — the transmitted SQL is the template, whose statement count is fixed
at one — and never alters the query's logical structure: for every
wildcard-free bound value `v` the parameterized Users query returns exactly
the rows whose `FirstName` contains `v` as a literal substring, so the
payload `';--` (matching no row) returns zero rows, and row counts follow
the same containment rule as for a benign value in the same placeholder
position. -/
theorem parameterized_query_blocks_injection
    (db : List UserRow) (v : String) (hv : noWildcard v.data = true) :
    (∀ (T : String) (B : BindingMap),
      statementsOf (transmit ⟨T, B⟩).sql = statementsOf T) ∧
    statementsOf parameterized_query_template = 1 ∧
    (∀ u, u ∈ runUsersQuery db v ↔ u ∈ db ∧ v.data <:+: u.FirstName.data) ∧
    ((∀ u ∈ db, ¬ v.data <:+: u.FirstName.data) → runUsersQuery db v = []) := by
  refine ⟨fun T B => rfl, by decide, ?_, ?_⟩
  · intro u
    simp only [runUsersQuery, List.mem_filter]
    exact and_congr_right fun _ => likeMatch_contains u.FirstName.data hv
  · intro h
    apply List.filter_eq_nil_iff.mpr
    intro u hu hpred
    exact h u hu ((likeMatch_contains u.FirstName.data hv).mp hpred)

/-- Witness for C1: the hostile payload `';--` is wildcard-free, and on a
concrete two-row Users table containing Frida Ericson and Alexander Dahl it
selects zero rows while the transmitted template still consists of exactly
one statement. -/
theorem parameterized_query_blocks_injection_witness :
    runUsersQuery [fridaRow, alexRow] "';--" = [] ∧
    statementsOf parameterized_query_template = 1 :=
  ⟨(parameterized_query_blocks_injection [fridaRow, alexRow] "';--"
      (by decide)).2.2.2 (by decide),
   (parameterized_query_blocks_injection [fridaRow, alexRow] "';--"
      (by decide)).2.1⟩

/-- C2: the query text handed to the database transport is exactly the
template text, for every binding map — bound values travel on the separate
`params` channel and are never interpolated into the SQL text. -/
theorem transmit_keeps_channels_separate (q : BoundQuery) (B : BindingMap) :
    (transmit q).sql = q.template ∧
    (transmit q).params = q.bindings ∧
    (transmit ⟨q.template, B⟩).sql = (transmit q).sql :=
  ⟨rfl, rfl, rfl⟩

/-- C3: when a placeholder of the template has no binding, or a binding
names no placeholder of the template, `bind` fails with a
`BindingMismatch` error and returns no bound query. -/
theorem bind_fails_on_name_mismatch (T : String) (B : BindingMap)
    (h : (∃ p, p ∈ placeholders T ∧ p ∉ bindingNames B) ∨
         (∃ n, n ∈ bindingNames B ∧ n ∉ placeholders T)) :
    Executor.bind T B = .error (.bindingMismatch bindingMismatchMsg) := by
  unfold Executor.bind
  rw [if_neg]
  intro hm
  rw [nameSetsMatch_iff] at hm
  rcases h with ⟨p, hp, hnp⟩ | ⟨n, hn, hnp⟩
  · exact hnp (hm.1 p hp)
  · exact hnp (hm.2 n hn)

/-- Witness for C3: the Users template has the placeholder `first_name`,
so binding it against the empty binding map fails with
`BindingMismatch`. -/
theorem bind_fails_on_name_mismatch_witness :
    Executor.bind parameterized_query_template [] =
      .error (.bindingMismatch bindingMismatchMsg) :=
  bind_fails_on_name_mismatch _ _ (.inl ⟨"first_name", by decide, by decide⟩)

/-- C4: when the placeholder-name set of the template and the name set of
the binding map are exactly equal, `bind` succeeds and the resulting
`BoundQuery` carries the binding map unmodified. -/
theorem bind_round_trips_bindings (T : String) (B : BindingMap)
    (h : ∀ x, x ∈ placeholders T ↔ x ∈ bindingNames B) :
    Executor.bind T B = .ok ⟨T, B⟩ := by
  unfold Executor.bind
  rw [if_pos]
  rw [nameSetsMatch_iff]
  exact ⟨fun p hp => (h p).mp hp, fun n hn => (h n).mpr hn⟩

/-- Witness for C4: binding the Users template against the singleton map
for `first_name` succeeds and round-trips the map. -/
theorem bind_round_trips_bindings_witness :
    Executor.bind parameterized_query_template
        [("first_name", Scalar.str "Frida")] =
      .ok ⟨parameterized_query_template,
           [("first_name", Scalar.str "Frida")]⟩ :=
  bind_round_trips_bindings _ _ (fun _ => Iff.rfl)

/-- C5: every call to `execute` acquires the connection exactly once and
releases it exactly once, on the success branch and on the failure branch
alike, so acquire/release parity is preserved by every call. -/
theorem execute_balances_connection
    (transport : Transmission → Except TransportError RawResult)
    (q : BoundQuery) (st : ConnState) :
    (execute transport q st).1.acquires = st.acquires + 1 ∧
    (execute transport q st).1.releases = st.releases + 1 ∧
    (st.acquires = st.releases →
      (execute transport q st).1.acquires =
        (execute transport q st).1.releases) := by
  have hfst : (execute transport q st).1 =
      ⟨st.acquires + 1, st.releases + 1⟩ := by
    unfold execute
    cases transport (transmit q) <;> rfl
  refine ⟨by rw [hfst], by rw [hfst], fun h => by rw [hfst, h]⟩

/-- Witness for C5: a transport that always fails with a timeout still
leaves the acquire and release counters equal after the call. -/
theorem execute_balances_connection_witness :
    (execute (fun _ => .error (.timeout "Login timeout expired"))
        ⟨parameterized_query_template, []⟩ ⟨0, 0⟩).1.acquires =
    (execute (fun _ => .error (.timeout "Login timeout expired"))
        ⟨parameterized_query_template, []⟩ ⟨0, 0⟩).1.releases :=
  (execute_balances_connection _ _ _).2.2 rfl

/-- C6: when the transport fails, `execute` returns the classified
`ExecutionError`: a `ConnectionError` for unreachable host, authentication
failure, or timeout, and a `QueryError` for malformed SQL, constraint
violation, or type mismatch — and the original diagnostic message is
preserved, never discarded. -/
theorem execute_classifies_and_keeps_message
    (transport : Transmission → Except TransportError RawResult)
    (q : BoundQuery) (st : ConnState) (e : TransportError)
    (h : transport (transmit q) = .error e) :
    (execute transport q st).2 = .error (classify e) ∧
    (classify e).message = e.message ∧
    (isConnectionKind e = true →
      classify e = .connectionError e.message) ∧
    (isConnectionKind e = false →
      classify e = .queryError e.message) := by
  refine ⟨by simp [execute, h], ?_, ?_, ?_⟩ <;>
    cases e <;>
      simp [classify, ExecutionError.message, TransportError.message,
        isConnectionKind]

/-- Witness for C6: a timeout reported by the transport surfaces as a
`ConnectionError` carrying the transport's own diagnostic text. -/
theorem execute_classifies_and_keeps_message_witness :
    (execute (fun _ => .error (.timeout "HYT00 Login timeout expired"))
        ⟨parameterized_query_template, []⟩ ⟨0, 0⟩).2 =
      .error (classify (.timeout "HYT00 Login timeout expired")) ∧
    (classify (TransportError.timeout "HYT00 Login timeout expired")).message
      = "HYT00 Login timeout expired" :=
  ⟨(execute_classifies_and_keeps_message
      (fun _ => .error (.timeout "HYT00 Login timeout expired"))
      ⟨parameterized_query_template, []⟩ ⟨0, 0⟩
      (.timeout "HYT00 Login timeout expired") rfl).1,
   (execute_classifies_and_keeps_message
      (fun _ => .error (.timeout "HYT00 Login timeout expired"))
      ⟨parameterized_query_template, []⟩ ⟨0, 0⟩
      (.timeout "HYT00 Login timeout expired") rfl).2.1⟩

/-- C7: on success `execute` returns the projected result set, whose
declared keys are exactly the transport's columns in order, and, whenever
each raw row has one field per column, every record's field names align
positionally with those columns. -/
theorem execute_preserves_column_order
    (transport : Transmission → Except TransportError RawResult)
    (q : BoundQuery) (st : ConnState) (raw : RawResult)
    (h : transport (transmit q) = .ok raw)
    (hlen : ∀ row ∈ raw.rows, row.length = raw.columns.length) :
    (execute transport q st).2 = .ok (projectRaw raw) ∧
    (projectRaw raw).keys = raw.columns ∧
    (∀ rec ∈ (projectRaw raw).records, rec.map Prod.fst = raw.columns) := by
  refine ⟨by simp [execute, h], rfl, ?_⟩
  intro rec hrec
  simp only [projectRaw, List.mem_map] at hrec
  obtain ⟨row, hrow, rfl⟩ := hrec
  exact List.map_fst_zip _ _ (le_of_eq (hlen row hrow).symm)

/-- Witness for C7: the four-column Users header of the demo notebook is
reproduced as the keys of the projected result, and the single record's
field names are those columns. -/
theorem execute_preserves_column_order_witness :
    (execute (fun _ => .ok demoRaw)
        ⟨parameterized_query_template, []⟩ ⟨0, 0⟩).2 =
      .ok (projectRaw demoRaw) ∧
    (projectRaw demoRaw).keys = demoRaw.columns :=
  ⟨(execute_preserves_column_order (fun _ => .ok demoRaw)
      ⟨parameterized_query_template, []⟩ ⟨0, 0⟩ demoRaw rfl (by decide)).1,
   (execute_preserves_column_order (fun _ => .ok demoRaw)
      ⟨parameterized_query_template, []⟩ ⟨0, 0⟩ demoRaw rfl (by decide)).2.1⟩

/-- C8: executing the same `BoundQuery` a second time against unchanged
data (the same pure transport) yields an identical result set — execution
performs no hidden mutation that could make the repeat differ. -/
theorem execute_repeat_same_result
    (transport : Transmission → Except TransportError RawResult)
    (q : BoundQuery) (st : ConnState) :
    (execute transport q ((execute transport q st).1)).2 =
      (execute transport q st).2 := by
  cases h : transport (transmit q) <;> simp [execute, h]

/-- C9: `search_books` filters with the unescaped case-insensitive pattern
`'%' + s + '%'`, so LIKE wildcards inside the input act as wildcards, not
literals: the input `%` selects every book in any database, the input `_`
matches a title containing no underscore, and matching ignores case. -/
theorem search_books_unescaped_wildcards (db : List Book) :
    search_books_query db "%" = db ∧
    search_books_query [bookAb] "_" = [bookAb] ∧
    search_books_query [bookAb] "aB" = [bookAb] := by
  refine ⟨?_, rfl, rfl⟩
  apply List.filter_eq_self.mpr
  intro b _
  exact likeMatch_three_percent (b.Title.data.map Char.toLower)

/-- C10: `search_books` is total: it always returns Python's `None` (here
`()`), prints the not-found message when the query yields no books, and,
when the query or the traversal of a book's lazy `inventory` raises, the
exception is caught and its message printed instead of being re-raised. -/
theorem search_books_never_raises (q : Except String (List Book)) :
    (search_books q).2 = () ∧
    (∀ e, q = .error e → (search_books q).1 = [errLine e]) ∧
    (q = .ok [] → (search_books q).1 = [noBooksMsg]) ∧
    (∀ results e, q = .ok results → (printBooks results).2 = some e →
      (search_books q).1 = (printBooks results).1 ++ [errLine e]) := by
  refine ⟨rfl, ?_, ?_, ?_⟩
  · rintro e rfl; rfl
  · rintro rfl; rfl
  · rintro results e rfl hp
    cases results with
    | nil => simp [printBooks] at hp
    | cons b bs =>
      rcases hpr : printBooks (b :: bs) with ⟨lines, err⟩
      rw [hpr] at hp
      simp only at hp
      subst hp
      simp [search_books, hpr]

/-- Witness for C10: a book whose lazy inventory load raises `boom` makes
`search_books` print its two header lines followed by the caught error
message, and the function still returns `None`. -/
theorem search_books_never_raises_witness :
    (search_books (.ok [⟨"T", "I", .error "boom"⟩])).1 =
      (printBooks [⟨"T", "I", .error "boom"⟩]).1 ++ [errLine "boom"] :=
  (search_books_never_raises _).2.2.2 [⟨"T", "I", .error "boom"⟩] "boom"
    rfl rfl
